import Mathlib

/-!
# Verification of the moviesdb rating-aggregation pipeline

Shallow embedding of the rating aggregation, actor analytics and
collaboration analysis code of the `moviesdb` Django repository
(`movies/models.py`, `movies/views.py` and the three management commands
under `movies/management/commands/`), together with theorems settling the
specification claims about it.

Modelling conventions:
* Python `Decimal` arithmetic is modelled by exact rationals `ℚ` (the
  28-significant-digit `Decimal` context only differs from exact
  arithmetic in digits far beyond anything the claims mention).
* Database rows are modelled as Lean lists, in the order the database
  returns them for an unordered query (SQLite: rowid order).
* SQL `AVG` ignores NULLs; a NULL-able SQL value is an `Option`.
* A Python value of type `Decimal | str | None` is a `PyVal`.
* A Python function that can raise is embedded in `Except String`.
* Dates are day numbers (`ℤ`); only differences of dates matter here.
-/

namespace MoviesDB

/-- A Python value as returned by the `rating` properties of
`movies/models.py`: the string `"No ratings yet"`, a `Decimal`, or `None`. -/
inductive PyVal where
  | none : PyVal
  | str : String → PyVal
  | dec : ℚ → PyVal
deriving DecidableEq, Repr

/-- The rating values of a list as exact rationals. -/
def ratingCasts (l : List ℕ) : List ℚ :=
  l.map (fun r : ℕ => (r : ℚ))

/-- Mean of a list of integer ratings as an exact rational:
`sum / len`.  Total; callers must handle the empty case themselves,
exactly as the Python code does. -/
def listMean (l : List ℕ) : ℚ :=
  (ratingCasts l).sum / (l.length : ℚ)

/-- Embeds `Command._calculate_average_rating` (identical in
`get_simple_actor_performance_report.py` lines 120-132,
`get_simple_actors_performance_report.py` lines 100-112 and
`get_advanced_actor_performance_report.py` lines 427-435):
empty input returns `Decimal('0.00')`, otherwise the exact
`sum / len` of the rating values.  No range check is performed on the
values. -/
def calculateAverageRating (ratings : List ℕ) : ℚ :=
  if ratings = [] then 0 else listMean ratings

/-- SQL `AVG` over a column with NULLs dropped: `none` when no non-NULL
value remains (the aggregate of an empty set is NULL). -/
def sqlAvg (l : List ℚ) : Option ℚ :=
  if l = [] then Option.none else Option.some (l.sum / (l.length : ℚ))

/-- Embeds `episode_rating_subquery` of `models.py` (used at lines
135-139 and 187-191): the average of one episode's rating rows, NULL
(`none`) when the episode has no rating rows. -/
def episodeAvgSubquery (ratings : List ℕ) : Option ℚ :=
  if ratings = [] then Option.none else Option.some (listMean ratings)

/-- A season as the rating roll-up sees it: the rating rows of each of
its episodes, episodes in rowid order. -/
structure SeasonData where
  episodes : List (List ℕ)
deriving DecidableEq, Repr

/-- A TV show as the rating roll-up sees it: its seasons in order. -/
structure ShowData where
  seasons : List SeasonData
deriving DecidableEq, Repr

/-- Embeds `Season.rating` (`models.py` lines 184-206): every episode is
annotated with its own average rating (NULL when unrated), SQL `AVG`
over the annotated column drops the NULLs, and the Python epilogue maps
a `0` average to `'No ratings yet'` and otherwise returns the value
(`None` stays `None`, since `None == 0` is false in Python). -/
def seasonRating (s : SeasonData) : PyVal :=
  match sqlAvg (s.episodes.filterMap episodeAvgSubquery) with
  | Option.none => PyVal.none
  | Option.some q => if q = 0 then PyVal.str "No ratings yet" else PyVal.dec q

/-- Embeds `episodes_with_ratings_subquery` of `TVShow.rating`
(`models.py` lines 141-145).  `values('season').annotate(avg_rating=
Subquery(...)).values('avg_rating')[:1]` contains no aggregate, so no
GROUP BY is emitted: the query selects, per episode row, that episode's
average rating, and `LIMIT 1` keeps only the first episode row of the
season (rowid order; NULL when the season has no episodes or its first
episode has no ratings). -/
def seasonFirstEpisodeAvg (s : SeasonData) : Option ℚ :=
  match s.episodes with
  | [] => Option.none
  | e :: _ => episodeAvgSubquery e

/-- Embeds `TVShow.rating` (`models.py` lines 132-160): each season is
annotated with `seasonFirstEpisodeAvg`, SQL `AVG` drops the NULLs, and
the same `== 0` epilogue follows. -/
def tvShowRating (sh : ShowData) : PyVal :=
  match sqlAvg (sh.seasons.filterMap seasonFirstEpisodeAvg) with
  | Option.none => PyVal.none
  | Option.some q => if q = 0 then PyVal.str "No ratings yet" else PyVal.dec q

/-- The defined episode means of a season, stated independently of the
subquery plumbing: keep the episodes that have at least one rating row
(in order) and take each one's mean. -/
def ratedEpisodeMeans (s : SeasonData) : List ℚ :=
  (s.episodes.filter (fun e => !e.isEmpty)).map listMean

/-- Modelled from the spec: `showRating(show)` as §4.1 describes it —
the mean of the seasons' *defined* ratings, where a season's rating is
the mean of its episodes' defined means (hierarchical mean-of-means).
Used only as the comparison point for the claim about `TVShow.rating`. -/
def showRatingSpec (sh : ShowData) : Option ℚ :=
  sqlAvg (sh.seasons.filterMap (fun s => sqlAvg (ratedEpisodeMeans s)))

/-- Embeds the `avg_rating` annotation of the `tv_show_list` view
(`views.py` lines 97-100): `Avg('seasons__episodes__ratings__rating')`,
a flat mean pooling every individual rating row of the show. -/
def tvShowListAvg (sh : ShowData) : Option ℚ :=
  sqlAvg (ratingCasts (sh.seasons.flatMap (fun s => s.episodes.flatMap (fun e => e))))

/-- Embeds `Movie.rating` (`models.py` lines 104-110): the string
`"No ratings yet"` when the movie has no rating rows, otherwise the
`Decimal` average of all its rating rows. -/
def movieRatingProp (ratings : List ℕ) : PyVal :=
  if ratings = [] then PyVal.str "No ratings yet"
  else PyVal.dec (listMean ratings)

/-- Embeds `Episode.rating` (`models.py` lines 231-237); the code is
identical to `Movie.rating`, reading the episode's rating rows. -/
def episodeRatingProp (ratings : List ℕ) : PyVal :=
  if ratings = [] then PyVal.str "No ratings yet"
  else PyVal.dec (listMean ratings)

/-! ## The content store, as the management commands read it -/

/-- A movie row together with its relations, as the commands read it:
cast and director id lists and rating rows in database return order. -/
structure MovieData where
  id : ℕ
  genre : String
  releaseDate : ℤ
  cast : List ℕ
  directors : List ℕ
  ratings : List ℕ
deriving DecidableEq, Repr

/-- An episode row together with its relations; `showGenre` is the genre
of the episode's season's show (`episode.season.show.genre`). -/
structure EpisodeData where
  id : ℕ
  showGenre : String
  airDate : ℤ
  cast : List ℕ
  directors : List ℕ
  ratings : List ℕ
deriving DecidableEq, Repr

/-- The read-only data snapshot the commands run over.  Lists are in
database return order; `actorNames`/`directorNames` give `full_name` by
id. -/
structure Store where
  movies : List MovieData
  episodes : List EpisodeData
  actorNames : ℕ → String
  directorNames : ℕ → String

/-- `actor.movies.all()`: the movies whose cast contains the actor. -/
def actorMovies (store : Store) (actorId : ℕ) : List MovieData :=
  store.movies.filter (fun m => actorId ∈ m.cast)

/-- `Episode.objects.filter(actors=actor)`: the episodes whose cast
contains the actor. -/
def actorEpisodes (store : Store) (actorId : ℕ) : List EpisodeData :=
  store.episodes.filter (fun e => actorId ∈ e.cast)

/-! ## Rating distribution (`_calculate_rating_distribution`) -/

/-- The fixed-key counter dict `{1: 0, 2: 0, 3: 0, 4: 0, 5: 0}`. -/
structure RatingDist where
  c1 : ℕ
  c2 : ℕ
  c3 : ℕ
  c4 : ℕ
  c5 : ℕ
deriving DecidableEq, Repr

def RatingDist.initial : RatingDist := ⟨0, 0, 0, 0, 0⟩

/-- One step of `distribution[rating.rating] += 1`: any key outside
`{1,..,5}` raises `KeyError`. -/
def distStep (d : RatingDist) (r : ℕ) : Except String RatingDist :=
  match r with
  | 1 => Except.ok { d with c1 := d.c1 + 1 }
  | 2 => Except.ok { d with c2 := d.c2 + 1 }
  | 3 => Except.ok { d with c3 := d.c3 + 1 }
  | 4 => Except.ok { d with c4 := d.c4 + 1 }
  | 5 => Except.ok { d with c5 := d.c5 + 1 }
  | _ => Except.error "KeyError"

/-- The loop of `_calculate_rating_distribution`: fold `distStep` over
the ratings, stopping at the first raise. -/
def distributionLoop (d : RatingDist) : List ℕ → Except String RatingDist
  | [] => Except.ok d
  | r :: rs =>
      match distStep d r with
      | Except.ok d1 => distributionLoop d1 rs
      | Except.error e => Except.error e

/-- Embeds `Command._calculate_rating_distribution`
(`get_simple_actor_performance_report.py` lines 206-217, and the
value-based copy in `get_simple_actors_performance_report.py` lines
173-184): count each rating into the five buckets, raising `KeyError`
at the first out-of-range value. -/
def calculateRatingDistribution (ratings : List ℕ) : Except String RatingDist :=
  distributionLoop RatingDist.initial ratings

/-! ## Career metrics (`_calculate_career_metrics`) -/

def minDate : List ℤ → Option ℤ
  | [] => Option.none
  | x :: xs => Option.some (xs.foldl min x)

def maxDate : List ℤ → Option ℤ
  | [] => Option.none
  | x :: xs => Option.some (xs.foldl max x)

/-- The Python metrics dict: each key is present (`some`) or absent
(`none`).  The floating-point `career_span_years` field
(`days / 365.25`) is presentation and is determined by
`careerSpanDays`; it is not modelled separately. -/
structure CareerMetrics where
  firstMovie : Option ℤ
  latestMovie : Option ℤ
  firstEpisode : Option ℤ
  latestEpisode : Option ℤ
  careerSpanDays : Option ℤ
deriving DecidableEq, Repr

/-- Embeds `Command._calculate_career_metrics`
(`get_simple_actor_performance_report.py` lines 219-249; the threaded
file's copy is identical): first/latest dates come from sorting by date
(so min and max), and the span keys are written only when at least one
date list was non-empty. -/
def calculateCareerMetrics (movies : List MovieData) (episodes : List EpisodeData) :
    CareerMetrics :=
  let mdates := movies.map (fun m => m.releaseDate)
  let edates := episodes.map (fun e => e.airDate)
  let allDates :=
    (match minDate mdates, maxDate mdates with
     | Option.some a, Option.some b => [a, b]
     | _, _ => []) ++
    (match minDate edates, maxDate edates with
     | Option.some a, Option.some b => [a, b]
     | _, _ => [])
  { firstMovie := minDate mdates
    latestMovie := maxDate mdates
    firstEpisode := minDate edates
    latestEpisode := maxDate edates
    careerSpanDays :=
      match minDate allDates, maxDate allDates with
      | Option.some mn, Option.some mx => Option.some (mx - mn)
      | _, _ => Option.none }

/-! ## Genre breakdown (`_analyze_actor_genres`) -/

/-- A `defaultdict` genre entry while it is being accumulated:
`{'movies': 0, 'episodes': 0, 'ratings': []}`. -/
structure GenreAcc where
  movies : ℕ
  episodes : ℕ
  ratings : List ℕ
deriving DecidableEq, Repr

def GenreAcc.initial : GenreAcc := ⟨0, 0, []⟩

/-- `defaultdict` access-and-update: the first access to a key inserts
it at the end (Python dicts preserve insertion order). -/
def upsertGenre (m : List (String × GenreAcc)) (k : String) (f : GenreAcc → GenreAcc) :
    List (String × GenreAcc) :=
  match m with
  | [] => [(k, f GenreAcc.initial)]
  | (k', v) :: rest =>
      if k' = k then (k', f v) :: rest else (k', v) :: upsertGenre rest k f

/-- A finished genre entry of the sequential command, after the final
loop adds `avg_rating`. -/
structure GenreEntry where
  movies : ℕ
  episodes : ℕ
  ratings : List ℕ
  avgRating : ℚ
deriving DecidableEq, Repr

/-- Embeds `Command._analyze_actor_genres`
(`get_simple_actor_performance_report.py` lines 134-163): bump the
movie count and collect the movie's rating rows per movie genre, then
the episode count and rating rows per show genre, then compute each
entry's average. -/
def analyzeActorGenres (movies : List MovieData) (episodes : List EpisodeData) :
    List (String × GenreEntry) :=
  let afterMovies := movies.foldl
    (fun acc m => upsertGenre acc m.genre
      (fun g => { g with movies := g.movies + 1, ratings := g.ratings ++ m.ratings })) []
  let acc := episodes.foldl
    (fun acc e => upsertGenre acc e.showGenre
      (fun g => { g with episodes := g.episodes + 1, ratings := g.ratings ++ e.ratings }))
    afterMovies
  acc.map (fun kv =>
    (kv.1, ⟨kv.2.movies, kv.2.episodes, kv.2.ratings, calculateAverageRating kv.2.ratings⟩))

/-- Embeds the threaded command's `_analyze_actor_genres`
(`get_simple_actors_performance_report.py` lines 114-131): only the
counts are bumped; the `ratings` list stays at its default `[]` and no
average is ever added. -/
def analyzeActorGenresT (movies : List MovieData) (episodes : List EpisodeData) :
    List (String × GenreAcc) :=
  let afterMovies := movies.foldl
    (fun acc m => upsertGenre acc m.genre (fun g => { g with movies := g.movies + 1 })) []
  episodes.foldl
    (fun acc e => upsertGenre acc e.showGenre (fun g => { g with episodes := g.episodes + 1 }))
    afterMovies

/-! ## Collaborations (`_find_collaborations` and the report's top-5) -/

/-- `defaultdict(int)` increment: bump an existing key in place, or
append the key with count 1 (Python dicts preserve insertion order). -/
def bump (m : List (String × ℕ)) (k : String) : List (String × ℕ) :=
  match m with
  | [] => [(k, 1)]
  | (k', v) :: rest =>
      if k' = k then (k', v + 1) :: rest else (k', v) :: bump rest k

/-- Embeds `Command._find_collaborations` (identical in
`get_simple_actor_performance_report.py` lines 165-197 and
`get_simple_actors_performance_report.py` lines 133-165): for each of
the actor's movies, count every other cast member under their full name
and every director under `"Director: "` + name; then the same over the
actor's episodes.  The result is keyed by display name, not id. -/
def findCollaborations (store : Store) (actorId : ℕ) : List (String × ℕ) :=
  let afterMovies := (actorMovies store actorId).foldl
    (fun acc m =>
      let acc1 := (m.cast.filter (fun a => a ≠ actorId)).foldl
        (fun ac a => bump ac (store.actorNames a)) acc
      m.directors.foldl
        (fun ac d => bump ac ("Director: " ++ store.directorNames d)) acc1) []
  (actorEpisodes store actorId).foldl
    (fun acc e =>
      let acc1 := (e.cast.filter (fun a => a ≠ actorId)).foldl
        (fun ac a => bump ac (store.actorNames a)) acc
      e.directors.foldl
        (fun ac d => bump ac ("Director: " ++ store.directorNames d)) acc1)
    afterMovies

/-- Insert into a list so that every earlier element with a strictly
larger count stays in front; among equal counts the inserted element
goes first (it came earlier in the original list). -/
def insertByCountDesc (x : String × ℕ) : List (String × ℕ) → List (String × ℕ)
  | [] => [x]
  | y :: ys => if x.2 < y.2 then y :: insertByCountDesc x ys else x :: y :: ys

/-- Embeds Python's stable `sorted(items, key=lambda x: x[1],
reverse=True)` (used in `_generate_report`,
`get_simple_actor_performance_report.py` lines 302-306 and
`get_simple_actors_performance_report.py` lines 269-273): sort by count
descending; elements with equal counts keep their original relative
order (Python's sort is stable, also under `reverse=True`). -/
def sortByCountDesc : List (String × ℕ) → List (String × ℕ)
  | [] => []
  | x :: xs => insertByCountDesc x (sortByCountDesc xs)

/-- The report's "Top Collaborations" list: the collaboration dict's
items sorted by count descending (stable) and truncated to 5. -/
def topCollaborations (store : Store) (actorId : ℕ) : List (String × ℕ) :=
  (sortByCountDesc (findCollaborations store actorId)).take 5

/-! ## Per-actor summary records -/

/-- The per-actor summary dict built by the sequential command's
`_analyze_single_actor` (`get_simple_actor_performance_report.py`
lines 67-118). -/
structure ActorAnalysis where
  actorId : ℕ
  name : String
  totalMovies : ℕ
  totalEpisodes : ℕ
  movieAvgRating : ℚ
  episodeAvgRating : ℚ
  overallAvgRating : ℚ
  genreBreakdown : List (String × GenreEntry)
  collaborations : List (String × ℕ)
  ratingDistribution : RatingDist
  careerMetrics : CareerMetrics
deriving DecidableEq, Repr

/-- Embeds the sequential `Command._analyze_single_actor`: gather the
actor's movies and episodes, pool all their rating rows, and assemble
the summary dict.  The only statement in it that can raise is the
`KeyError` inside `_calculate_rating_distribution`, so the whole
analysis is an `Except`. -/
def analyzeSingleActor (store : Store) (actorId : ℕ) : Except String ActorAnalysis :=
  let movies := actorMovies store actorId
  let episodes := actorEpisodes store actorId
  let movieRatingsData := movies.flatMap (fun m => m.ratings)
  let episodeRatingsData := episodes.flatMap (fun e => e.ratings)
  match calculateRatingDistribution (movieRatingsData ++ episodeRatingsData) with
  | Except.error e => Except.error e
  | Except.ok dist =>
      Except.ok
        { actorId := actorId
          name := store.actorNames actorId
          totalMovies := movies.length
          totalEpisodes := episodes.length
          movieAvgRating := calculateAverageRating movieRatingsData
          episodeAvgRating := calculateAverageRating episodeRatingsData
          overallAvgRating :=
            calculateAverageRating (movieRatingsData ++ episodeRatingsData)
          genreBreakdown := analyzeActorGenres movies episodes
          collaborations := findCollaborations store actorId
          ratingDistribution := dist
          careerMetrics := calculateCareerMetrics movies episodes }

/-- The per-actor summary dict built by the threaded command's
`_analyze_single_actor` (`get_simple_actors_performance_report.py`
lines 65-98); there the movie/episode averages come from SQL `AVG`, so
they are NULL-able. -/
structure ActorAnalysisT where
  actorId : ℕ
  name : String
  totalMovies : ℕ
  totalEpisodes : ℕ
  movieAvgRating : Option ℚ
  episodeAvgRating : Option ℚ
  overallAvgRating : ℚ
  genreBreakdown : List (String × GenreAcc)
  collaborations : List (String × ℕ)
  ratingDistribution : RatingDist
  careerMetrics : CareerMetrics
deriving DecidableEq, Repr

/-- Embeds the threaded `Command._analyze_single_actor`.  As in the
sequential version, only the distribution step can raise; a raise is
caught by the driver, which then drops this actor's record. -/
def analyzeSingleActorT (store : Store) (actorId : ℕ) : Except String ActorAnalysisT :=
  let movies := actorMovies store actorId
  let episodes := actorEpisodes store actorId
  let movieRatingValues := movies.flatMap (fun m => m.ratings)
  let episodeRatingValues := episodes.flatMap (fun e => e.ratings)
  let allRatingValues := movieRatingValues ++ episodeRatingValues
  match calculateRatingDistribution allRatingValues with
  | Except.error e => Except.error e
  | Except.ok dist =>
      Except.ok
        { actorId := actorId
          name := store.actorNames actorId
          totalMovies := movies.length
          totalEpisodes := episodes.length
          movieAvgRating := sqlAvg (ratingCasts movieRatingValues)
          episodeAvgRating := sqlAvg (ratingCasts episodeRatingValues)
          overallAvgRating := calculateAverageRating allRatingValues
          genreBreakdown := analyzeActorGenresT movies episodes
          collaborations := findCollaborations store actorId
          ratingDistribution := dist
          careerMetrics := calculateCareerMetrics movies episodes }

/-- Embeds the threaded `Command._analyze_all_actors`
(`get_simple_actors_performance_report.py` lines 50-63): one future per
actor is submitted to a five-worker pool and results are appended in
`concurrent.futures.as_completed` order — the order in which the
futures happen to finish, which the thread scheduler decides.
`completionOrder` is that order (a permutation of the submitted
actors); a future that raised is reported to stdout and its record
dropped. -/
def analyzeAllActorsT (store : Store) (completionOrder : List ℕ) : List ActorAnalysisT :=
  completionOrder.filterMap (fun a => (analyzeSingleActorT store a).toOption)

/-! ## Pairwise collaboration (`get_advanced_actor_performance_report.py`) -/

/-- `actor1.movies.filter(actors=actor2)`: movies containing both. -/
def sharedMovies (store : Store) (a b : ℕ) : List MovieData :=
  store.movies.filter (fun m => a ∈ m.cast ∧ b ∈ m.cast)

/-- `Episode.objects.filter(actors=actor1).filter(actors=actor2)`:
episodes containing both. -/
def sharedEpisodes (store : Store) (a b : ℕ) : List EpisodeData :=
  store.episodes.filter (fun e => a ∈ e.cast ∧ b ∈ e.cast)

/-- The dict returned by `_analyze_actor_pair_collaboration`. -/
structure PairCollaboration where
  collaborations : ℕ
  shMovies : List MovieData
  shEpisodes : List EpisodeData
deriving DecidableEq, Repr

/-- Embeds `Command._analyze_actor_pair_collaboration`
(`get_advanced_actor_performance_report.py` lines 380-394): the
collaboration count is the number of shared movies plus the number of
shared episodes. -/
def analyzeActorPairCollaboration (store : Store) (a b : ℕ) : PairCollaboration :=
  let sm := sharedMovies store a b
  let se := sharedEpisodes store a b
  ⟨sm.length + se.length, sm, se⟩

/-- The ordered pairs `(actors[i], actors[j])` with `i < j`, exactly as
the nested loops of `_analyze_collaboration_network` enumerate them. -/
def allOrderedPairs : List ℕ → List (ℕ × ℕ)
  | [] => []
  | a :: rest => rest.map (fun b => (a, b)) ++ allOrderedPairs rest

/-- Embeds `Command._analyze_collaboration_network`
(`get_advanced_actor_performance_report.py` lines 298-325): every pair
with `i < j` is analyzed and kept (keyed `"{id1}_{id2}"`) iff its
collaboration count is positive. -/
def collaborationNetwork (store : Store) (actors : List ℕ) : List ((ℕ × ℕ) × ℕ) :=
  (allOrderedPairs actors).filterMap (fun p =>
    let info := analyzeActorPairCollaboration store p.1 p.2
    if 0 < info.collaborations then Option.some (p, info.collaborations) else Option.none)

/-! ## Helper lemmas -/

/-- The NULL-dropping episode annotation of `Season.rating` is the list
of means of the episodes that have at least one rating row. -/
lemma filterMap_episodeAvgSubquery (l : List (List ℕ)) :
    l.filterMap episodeAvgSubquery = (l.filter (fun e => !e.isEmpty)).map listMean := by
  induction l with
  | nil => rfl
  | cons e l ih =>
      by_cases he : e = []
      · subst he
        simp [List.filterMap_cons, List.filter_cons, episodeAvgSubquery, ih]
      · simp [List.filterMap_cons, List.filter_cons, episodeAvgSubquery, he,
          List.isEmpty_iff, ih]

lemma mul_length_le_sum (l : List ℚ) (a : ℚ) (h : ∀ x ∈ l, a ≤ x) :
    a * (l.length : ℚ) ≤ l.sum := by
  induction l with
  | nil => simp
  | cons x xs ih =>
      have hx : a ≤ x := h x (List.mem_cons_self x xs)
      have hxs := ih (fun y hy => h y (List.mem_cons_of_mem x hy))
      simp only [List.length_cons, List.sum_cons]
      push_cast
      nlinarith

lemma sum_le_mul_length (l : List ℚ) (b : ℚ) (h : ∀ x ∈ l, x ≤ b) :
    l.sum ≤ b * (l.length : ℚ) := by
  induction l with
  | nil => simp
  | cons x xs ih =>
      have hx : x ≤ b := h x (List.mem_cons_self x xs)
      have hxs := ih (fun y hy => h y (List.mem_cons_of_mem x hy))
      simp only [List.length_cons, List.sum_cons]
      push_cast
      nlinarith

lemma le_listAvg (l : List ℚ) (a : ℚ) (hne : l ≠ []) (h : ∀ x ∈ l, a ≤ x) :
    a ≤ l.sum / (l.length : ℚ) := by
  have hlen : (0 : ℚ) < (l.length : ℚ) := by
    exact_mod_cast List.length_pos.mpr hne
  rw [le_div_iff₀ hlen]
  exact mul_length_le_sum l a h

lemma listAvg_le (l : List ℚ) (b : ℚ) (hne : l ≠ []) (h : ∀ x ∈ l, x ≤ b) :
    l.sum / (l.length : ℚ) ≤ b := by
  have hlen : (0 : ℚ) < (l.length : ℚ) := by
    exact_mod_cast List.length_pos.mpr hne
  rw [div_le_iff₀ hlen]
  exact sum_le_mul_length l b h

/-- The mean of a non-empty list of ratings that are all at least 1 is
at least 1. -/
lemma one_le_listMean (e : List ℕ) (hne : e ≠ []) (h : ∀ r ∈ e, 1 ≤ r) :
    1 ≤ listMean e := by
  unfold listMean
  have h1 : ratingCasts e ≠ [] := by
    intro hmap
    exact hne (List.map_eq_nil_iff.mp hmap)
  have h2 : ∀ x ∈ ratingCasts e, (1 : ℚ) ≤ x := by
    intro x hx
    rcases List.mem_map.mp hx with ⟨r, hr, hxr⟩
    subst hxr
    exact_mod_cast h r hr
  have hb := le_listAvg (ratingCasts e) 1 h1 h2
  rwa [ratingCasts, List.length_map] at hb

lemma mem_insertByCountDesc {z x : String × ℕ} :
    ∀ {l : List (String × ℕ)}, z ∈ insertByCountDesc x l ↔ z = x ∨ z ∈ l := by
  intro l
  induction l with
  | nil => simp [insertByCountDesc]
  | cons y ys ih =>
      by_cases hc : x.2 < y.2
      · rw [insertByCountDesc, if_pos hc, List.mem_cons, ih, List.mem_cons]
        tauto
      · rw [insertByCountDesc, if_neg hc, List.mem_cons, List.mem_cons]

lemma pairwise_insertByCountDesc (x : String × ℕ) :
    ∀ (l : List (String × ℕ)),
      l.Pairwise (fun u v => v.2 ≤ u.2) →
      (insertByCountDesc x l).Pairwise (fun u v => v.2 ≤ u.2) := by
  intro l
  induction l with
  | nil => intro _; simp [insertByCountDesc]
  | cons y ys ih =>
      intro hp
      rcases List.pairwise_cons.mp hp with ⟨hy, hys⟩
      by_cases hc : x.2 < y.2
      · rw [insertByCountDesc, if_pos hc]
        refine List.pairwise_cons.mpr ⟨?_, ih hys⟩
        intro z hz
        rcases mem_insertByCountDesc.mp hz with rfl | hz
        · exact le_of_lt hc
        · exact hy z hz
      · rw [insertByCountDesc, if_neg hc]
        refine List.pairwise_cons.mpr ⟨?_, hp⟩
        intro z hz
        rcases List.mem_cons.mp hz with rfl | hz
        · exact Nat.le_of_not_lt hc
        · exact le_trans (hy z hz) (Nat.le_of_not_lt hc)

lemma sortByCountDesc_pairwise (l : List (String × ℕ)) :
    (sortByCountDesc l).Pairwise (fun u v => v.2 ≤ u.2) := by
  induction l with
  | nil => simp [sortByCountDesc]
  | cons x xs ih => exact pairwise_insertByCountDesc x (sortByCountDesc xs) ih

lemma filter_insertByCountDesc (x : String × ℕ) (c : ℕ) :
    ∀ (l : List (String × ℕ)),
      (insertByCountDesc x l).filter (fun u => u.2 = c) =
        if x.2 = c then x :: l.filter (fun u => u.2 = c)
        else l.filter (fun u => u.2 = c) := by
  intro l
  induction l with
  | nil =>
      by_cases hx : x.2 = c <;>
        simp [insertByCountDesc, List.filter_cons, hx]
  | cons y ys ih =>
      by_cases hc : x.2 < y.2
      · rw [insertByCountDesc, if_pos hc]
        by_cases hx : x.2 = c
        · have hy : ¬ y.2 = c := by omega
          rw [if_pos hx]
          simp [List.filter_cons, hy, ih, hx]
        · rw [if_neg hx]
          by_cases hyc : y.2 = c <;> simp [List.filter_cons, hyc, ih, hx]
      · rw [insertByCountDesc, if_neg hc]
        by_cases hx : x.2 = c
        · rw [if_pos hx]
          simp [List.filter_cons, hx]
        · rw [if_neg hx]
          simp [List.filter_cons, hx]

/-- Stability of the report's sort: for every count value, the
equal-count entries appear in the sorted list exactly in their original
order. -/
lemma filter_sortByCountDesc (c : ℕ) (l : List (String × ℕ)) :
    (sortByCountDesc l).filter (fun u => u.2 = c) = l.filter (fun u => u.2 = c) := by
  induction l with
  | nil => rfl
  | cons x xs ih =>
      rw [sortByCountDesc, filter_insertByCountDesc]
      by_cases hx : x.2 = c
      · rw [if_pos hx, ih]
        simp [List.filter_cons, hx]
      · rw [if_neg hx, ih]
        simp [List.filter_cons, hx]

lemma mem_allOrderedPairs_ne {p : ℕ × ℕ} :
    ∀ {l : List ℕ}, l.Nodup → p ∈ allOrderedPairs l → p.1 ≠ p.2 := by
  intro l
  induction l with
  | nil => intro _ hp; simp [allOrderedPairs] at hp
  | cons a rest ih =>
      intro hnd hp
      rcases List.nodup_cons.mp hnd with ⟨ha, hrest⟩
      rcases List.mem_append.mp hp with hp | hp
      · rcases List.mem_map.mp hp with ⟨b, hb, hpb⟩
        subst hpb
        show a ≠ b
        intro hab
        subst hab
        exact ha hb
      · exact ih hrest hp

/-- The distribution loop succeeds from any accumulator exactly when
every rating is one of the five dict keys. -/
lemma distributionLoop_ok_iff :
    ∀ (rs : List ℕ) (d : RatingDist),
      (∃ d1, distributionLoop d rs = Except.ok d1) ↔ ∀ r ∈ rs, 1 ≤ r ∧ r ≤ 5 := by
  intro rs
  induction rs with
  | nil => intro d; simp [distributionLoop]
  | cons r rs ih =>
      intro d
      match r with
      | 0 => simp [distributionLoop, distStep]
      | 1 => simpa [distributionLoop, distStep] using ih _
      | 2 => simpa [distributionLoop, distStep] using ih _
      | 3 => simpa [distributionLoop, distStep] using ih _
      | 4 => simpa [distributionLoop, distStep] using ih _
      | 5 => simpa [distributionLoop, distStep] using ih _
      | (n + 6) => simp [distributionLoop, distStep]

/-! ## Claim theorems -/

/-- C1: for every season whose ratings are valid (each at least 1) and
that has at least one rated episode, `Season.rating` is the Decimal
arithmetic mean of the defined episode means only: each episode with
ratings contributes its own mean with equal weight, and unrated
episodes are excluded from both the sum and the divisor. -/
theorem season_rating_mean_of_defined (s : SeasonData)
    (hpos : ∀ e ∈ s.episodes, ∀ r ∈ e, 1 ≤ r)
    (hne : ∃ e ∈ s.episodes, e ≠ []) :
    seasonRating s =
      PyVal.dec ((ratedEpisodeMeans s).sum / ((ratedEpisodeMeans s).length : ℚ)) := by
  have hfm : s.episodes.filterMap episodeAvgSubquery = ratedEpisodeMeans s := by
    rw [filterMap_episodeAvgSubquery]; rfl
  have hnem : ratedEpisodeMeans s ≠ [] := by
    rcases hne with ⟨e, he, hene⟩
    intro h0
    have hm : listMean e ∈ ratedEpisodeMeans s := by
      unfold ratedEpisodeMeans
      exact List.mem_map_of_mem _ (List.mem_filter.mpr ⟨he, by simp [hene]⟩)
    rw [h0] at hm
    exact absurd hm (List.not_mem_nil _)
  have hge : ∀ x ∈ ratedEpisodeMeans s, (1 : ℚ) ≤ x := by
    intro x hx
    unfold ratedEpisodeMeans at hx
    rcases List.mem_map.mp hx with ⟨e, hef, hex⟩
    have hmem := List.mem_filter.mp hef
    subst hex
    refine one_le_listMean e ?_ (hpos e hmem.1)
    intro h0
    rw [h0] at hmem
    simpa using hmem.2
  have hmean : (1 : ℚ) ≤ (ratedEpisodeMeans s).sum / ((ratedEpisodeMeans s).length : ℚ) :=
    le_listAvg _ 1 hnem hge
  have hnz : ¬ ((ratedEpisodeMeans s).sum / ((ratedEpisodeMeans s).length : ℚ) = 0) := by
    intro h0
    rw [h0] at hmean
    norm_num at hmean
  unfold seasonRating
  rw [hfm]
  unfold sqlAvg
  rw [if_neg hnem]
  simp [hnz]

/-- C1 witness: a season with episodes rated `{5}`, `{5}` and one
unrated episode has season rating 5 — the unrated episode does not pull
the mean down. -/
theorem season_rating_mean_of_defined_witness :
    seasonRating ⟨[[5], [5], []]⟩ = PyVal.dec 5 := by
  rw [season_rating_mean_of_defined ⟨[[5], [5], []]⟩ (by decide) (by decide)]
  norm_num [ratedEpisodeMeans, listMean, ratingCasts]

/-- C2, evaluated at the failing input: for a show with one season whose
two episodes are rated `{1}` and `{5, 5, 5}`, `TVShow.rating` returns
1 — the mean of the *first* episode's ratings only (the season-level
subquery has no per-episode grouping, so its `LIMIT 1` keeps one
episode row) — while the season's own rating and the spec's
hierarchical mean-of-means are both 3, and the `tv_show_list` view's
annotation is the flat pooled mean 4.  Also, when every season is
unrated the code returns Python `None`, not the `'No ratings yet'`
marker (`None == 0` is false in Python). -/
theorem tv_show_rating_first_episode_bug :
    tvShowRating ⟨[⟨[[1], [5, 5, 5]]⟩]⟩ = PyVal.dec 1 ∧
    showRatingSpec ⟨[⟨[[1], [5, 5, 5]]⟩]⟩ = Option.some 3 ∧
    seasonRating ⟨[[1], [5, 5, 5]]⟩ = PyVal.dec 3 ∧
    tvShowListAvg ⟨[⟨[[1], [5, 5, 5]]⟩]⟩ = Option.some 4 ∧
    tvShowRating ⟨[⟨[[]]⟩]⟩ = PyVal.none := by
  have he1 : episodeAvgSubquery [1] = Option.some 1 := by
    rw [episodeAvgSubquery, if_neg (by decide)]
    norm_num [listMean, ratingCasts]
  have he5 : episodeAvgSubquery [5, 5, 5] = Option.some 5 := by
    rw [episodeAvgSubquery, if_neg (by decide)]
    norm_num [listMean, ratingCasts]
  have hmeans : ratedEpisodeMeans ⟨[[1], [5, 5, 5]]⟩ = [(1 : ℚ), 5] := by
    rw [ratedEpisodeMeans]
    norm_num [listMean, ratingCasts, List.filter]
  refine ⟨?_, ?_, ?_, ?_, ?_⟩
  · rw [tvShowRating]
    have hfm : List.filterMap seasonFirstEpisodeAvg [(⟨[[1], [5, 5, 5]]⟩ : SeasonData)] =
        [(1 : ℚ)] := by
      simp only [List.filterMap_cons, List.filterMap_nil, seasonFirstEpisodeAvg, he1]
    rw [hfm, sqlAvg, if_neg (by decide)]
    norm_num
  · rw [showRatingSpec]
    have hfm : List.filterMap (fun s => sqlAvg (ratedEpisodeMeans s))
        [(⟨[[1], [5, 5, 5]]⟩ : SeasonData)] = [(3 : ℚ)] := by
      simp only [List.filterMap_cons, List.filterMap_nil, hmeans]
      rw [sqlAvg, if_neg (by decide)]
      norm_num
    rw [hfm, sqlAvg, if_neg (by decide)]
    norm_num
  · rw [seasonRating]
    have hfm : List.filterMap episodeAvgSubquery [[1], [5, 5, 5]] = [(1 : ℚ), 5] := by
      simp only [List.filterMap_cons, List.filterMap_nil, he1, he5]
    rw [hfm, sqlAvg, if_neg (by decide)]
    norm_num
  · rw [tvShowListAvg]
    have hflat : ratingCasts
        ((⟨[⟨[[1], [5, 5, 5]]⟩]⟩ : ShowData).seasons.flatMap
          (fun s => s.episodes.flatMap (fun e => e))) = [(1 : ℚ), 5, 5, 5] := by
      norm_num [ratingCasts]
    rw [hflat, sqlAvg, if_neg (by decide)]
    norm_num
  · rw [tvShowRating]
    have hfm : List.filterMap seasonFirstEpisodeAvg [(⟨[[]]⟩ : SeasonData)] =
        ([] : List ℚ) := by
      simp [List.filterMap_cons, seasonFirstEpisodeAvg, episodeAvgSubquery]
    rw [hfm, sqlAvg, if_pos rfl]

/-- C3 counterexample: `_calculate_average_rating` of an empty rating
set is the numeric `Decimal('0.00')`, not an undefined result — the
claim "undefined iff empty, never a numeric 0 standing in for no data"
fails at `R = []`. -/
theorem calculate_average_rating_empty_zero :
    calculateAverageRating [] = (0 : ℚ) := by decide

/-- C3 amended: on a non-empty rating set the result is exactly
`sum / len` and lies within any bounds of the values, in particular
within `[min R, max R]`; on the empty set the code returns the numeric
`Decimal('0.00')` instead of an undefined result. -/
theorem calculate_average_rating_nonempty (rs : List ℕ) (hne : rs ≠ []) (a b : ℚ)
    (hab : ∀ r ∈ rs, a ≤ (r : ℚ) ∧ (r : ℚ) ≤ b) :
    calculateAverageRating rs = (ratingCasts rs).sum / (rs.length : ℚ) ∧
    a ≤ calculateAverageRating rs ∧ calculateAverageRating rs ≤ b := by
  have heq : calculateAverageRating rs = (ratingCasts rs).sum / (rs.length : ℚ) := by
    unfold calculateAverageRating listMean
    rw [if_neg hne]
  have hlen : ((ratingCasts rs).length : ℚ) = (rs.length : ℚ) := by
    rw [ratingCasts, List.length_map]
  have hcne : ratingCasts rs ≠ [] := by
    intro h0
    exact hne (List.map_eq_nil_iff.mp h0)
  refine ⟨heq, ?_, ?_⟩
  · rw [heq, ← hlen]
    refine le_listAvg _ a hcne ?_
    intro x hx
    rcases List.mem_map.mp hx with ⟨r, hr, hxr⟩
    subst hxr
    exact (hab r hr).1
  · rw [heq, ← hlen]
    refine listAvg_le _ b hcne ?_
    intro x hx
    rcases List.mem_map.mp hx with ⟨r, hr, hxr⟩
    subst hxr
    exact (hab r hr).2

/-- C3 witness: the ratings `[2, 4]` average to 3, which lies within
`[2, 4]`. -/
theorem calculate_average_rating_nonempty_witness :
    calculateAverageRating [2, 4] = 3 ∧
    (2 : ℚ) ≤ calculateAverageRating [2, 4] ∧ calculateAverageRating [2, 4] ≤ 4 := by
  have h := calculate_average_rating_nonempty [2, 4] (by decide) 2 4 (by decide)
  refine ⟨?_, h.2.1, h.2.2⟩
  rw [h.1]
  norm_num [ratingCasts]

/-- C10: `Movie.rating` and `Episode.rating` return the exact string
`"No ratings yet"` when the item has zero rating rows and the Decimal
mean of all its rating rows otherwise; in particular the no-data case
is distinguished by type from every numeric result, and an unrated item
never yields a numeric 0. -/
theorem model_rating_no_data_marker (rs : List ℕ) :
    (rs = [] →
      movieRatingProp rs = PyVal.str "No ratings yet" ∧
      episodeRatingProp rs = PyVal.str "No ratings yet") ∧
    (rs ≠ [] →
      movieRatingProp rs = PyVal.dec (listMean rs) ∧
      episodeRatingProp rs = PyVal.dec (listMean rs)) ∧
    (∀ q : ℚ, movieRatingProp [] ≠ PyVal.dec q ∧ episodeRatingProp [] ≠ PyVal.dec q) := by
  refine ⟨?_, ?_, ?_⟩
  · intro h
    subst h
    exact ⟨rfl, rfl⟩
  · intro h
    constructor <;> simp [movieRatingProp, episodeRatingProp, h]
  · intro q
    refine ⟨by simp [movieRatingProp], by simp [episodeRatingProp]⟩

/-- C10 witness: no ratings gives the string marker and never a numeric
0; the ratings `[4, 5]` give the Decimal mean 4.5. -/
theorem model_rating_no_data_marker_witness :
    movieRatingProp [] = PyVal.str "No ratings yet" ∧
    movieRatingProp [4, 5] = PyVal.dec (9 / 2) ∧
    episodeRatingProp [] ≠ PyVal.dec 0 := by
  refine ⟨((model_rating_no_data_marker []).1 rfl).1, ?_,
    ((model_rating_no_data_marker []).2.2 0).2⟩
  rw [((model_rating_no_data_marker [4, 5]).2.1 (by decide)).1]
  norm_num [listMean, ratingCasts]

/-- C4 amended: for every actor with no movies and no episodes, the
analysis completes without raising and returns counts 0, all three
average ratings equal to the numeric `Decimal('0.00')` (not an
undefined marker), empty genre/collaboration dicts, an all-zero rating
distribution, and an empty career-metrics dict — no `career_span` entry
at all rather than a span of 0. -/
theorem analyze_zero_content_actor (store : Store) (actorId : ℕ)
    (hm : actorMovies store actorId = []) (he : actorEpisodes store actorId = []) :
    analyzeSingleActor store actorId =
      Except.ok
        { actorId := actorId
          name := store.actorNames actorId
          totalMovies := 0
          totalEpisodes := 0
          movieAvgRating := 0
          episodeAvgRating := 0
          overallAvgRating := 0
          genreBreakdown := []
          collaborations := []
          ratingDistribution := RatingDist.initial
          careerMetrics :=
            ⟨Option.none, Option.none, Option.none, Option.none, Option.none⟩ } := by
  unfold analyzeSingleActor findCollaborations
  rw [hm, he]
  rfl

/-- C4 counterexample: at the concrete zero-content actor the claim
fails — every rating mean in the returned record is the numeric
`Decimal('0.00')` rather than an undefined value, and the career
metrics dict is empty (`career_span` absent) rather than recording a
span of 0. -/
theorem analyze_zero_content_actor_counterexample :
    analyzeSingleActor ⟨[], [], fun _ => "Ann Actor", fun _ => "Dan Director"⟩ 1 =
      Except.ok
        { actorId := 1
          name := "Ann Actor"
          totalMovies := 0
          totalEpisodes := 0
          movieAvgRating := 0
          episodeAvgRating := 0
          overallAvgRating := 0
          genreBreakdown := []
          collaborations := []
          ratingDistribution := ⟨0, 0, 0, 0, 0⟩
          careerMetrics :=
            ⟨Option.none, Option.none, Option.none, Option.none, Option.none⟩ } := by
  rfl

/-- C4 witness: an actor absent from a non-empty store still gets the
zero-content record. -/
theorem analyze_zero_content_actor_witness :
    analyzeSingleActor
        ⟨[⟨1, "ACTION", 100, [2], [3], [5, 4]⟩], [], fun _ => "Nia", fun _ => "Dov"⟩ 7 =
      Except.ok
        { actorId := 7
          name := "Nia"
          totalMovies := 0
          totalEpisodes := 0
          movieAvgRating := 0
          episodeAvgRating := 0
          overallAvgRating := 0
          genreBreakdown := []
          collaborations := []
          ratingDistribution := RatingDist.initial
          careerMetrics :=
            ⟨Option.none, Option.none, Option.none, Option.none, Option.none⟩ } :=
  analyze_zero_content_actor _ 7 (by decide) (by decide)

/-- C5: the pairwise collaboration count is symmetric in the two
actors, and for a duplicate-free actor population the collaboration
network (which enumerates only index pairs `i < j`) never contains a
self-pair. -/
theorem collaboration_symmetric_no_self_pairs (store : Store) (actors : List ℕ)
    (hnd : actors.Nodup) (a b : ℕ) :
    (analyzeActorPairCollaboration store a b).collaborations =
      (analyzeActorPairCollaboration store b a).collaborations ∧
    ∀ p : ℕ × ℕ, ∀ c : ℕ, (p, c) ∈ collaborationNetwork store actors → p.1 ≠ p.2 := by
  constructor
  · have hms : sharedMovies store a b = sharedMovies store b a := by
      unfold sharedMovies
      apply List.filter_congr
      intro m _
      simp [and_comm]
    have hes : sharedEpisodes store a b = sharedEpisodes store b a := by
      unfold sharedEpisodes
      apply List.filter_congr
      intro e _
      simp [and_comm]
    unfold analyzeActorPairCollaboration
    rw [hms, hes]
  · intro p c hp
    unfold collaborationNetwork at hp
    rcases List.mem_filterMap.mp hp with ⟨q, hq, hfq⟩
    dsimp only at hfq
    by_cases h0 : 0 < (analyzeActorPairCollaboration store q.1 q.2).collaborations
    · rw [if_pos h0] at hfq
      have hqp : (q, (analyzeActorPairCollaboration store q.1 q.2).collaborations) =
          (p, c) := Option.some.inj hfq
      have hq1 : q = p := congrArg Prod.fst hqp
      rw [← hq1]
      exact mem_allOrderedPairs_ne hnd hq
    · rw [if_neg h0] at hfq
      exact absurd hfq (by simp)

/-- C5 witness: symmetry and self-pair absence at a one-movie store
with cast `{1, 2}`. -/
theorem collaboration_symmetric_no_self_pairs_witness :
    (analyzeActorPairCollaboration
        ⟨[⟨1, "ACTION", 0, [1, 2], [], []⟩], [], fun _ => "", fun _ => ""⟩ 1 2).collaborations =
      (analyzeActorPairCollaboration
        ⟨[⟨1, "ACTION", 0, [1, 2], [], []⟩], [], fun _ => "", fun _ => ""⟩ 2 1).collaborations ∧
    ∀ p : ℕ × ℕ, ∀ c : ℕ,
      (p, c) ∈ collaborationNetwork
        ⟨[⟨1, "ACTION", 0, [1, 2], [], []⟩], [], fun _ => "", fun _ => ""⟩ [1, 2] →
      p.1 ≠ p.2 :=
  collaboration_symmetric_no_self_pairs _ [1, 2] (by decide) 1 2

/-- The content store of the claim's concrete scenario: movie M1 with
cast `{A, B, C}` (ids 1, 2, 3) and movie M2 with cast `{B, C}`. -/
def storeM1M2 : Store :=
  ⟨[⟨1, "ACTION", 0, [1, 2, 3], [], []⟩, ⟨2, "DRAMA", 0, [2, 3], [], []⟩], [],
    fun a => if a = 1 then "A" else if a = 2 then "B" else "C", fun _ => ""⟩

/-- C6: the pairwise collaboration count is the number of shared movies
plus the number of shared episodes, and on the store with exactly
M1 = `{A, B, C}` and M2 = `{B, C}` it gives `collaboration(B,C) = 2`
and `collaboration(A,B) = collaboration(A,C) = 1`. -/
theorem pair_collaboration_counts (store : Store) (a b : ℕ) :
    (analyzeActorPairCollaboration store a b).collaborations =
      (sharedMovies store a b).length + (sharedEpisodes store a b).length ∧
    (analyzeActorPairCollaboration storeM1M2 2 3).collaborations = 2 ∧
    (analyzeActorPairCollaboration storeM1M2 1 2).collaborations = 1 ∧
    (analyzeActorPairCollaboration storeM1M2 1 3).collaborations = 1 :=
  ⟨rfl, by decide, by decide, by decide⟩

/-- The tie-break counterexample store: actor 1 appears in movie M1
with actor 3 ("C") and in the later movie M2 with actor 2 ("B"), so
both collaborators have count 1 and "C" enters the dict first. -/
def storeTieBreak : Store :=
  ⟨[⟨1, "ACTION", 0, [1, 3], [], []⟩, ⟨2, "DRAMA", 0, [1, 2], [], []⟩], [],
    fun a => if a = 2 then "B" else if a = 3 then "C" else "A", fun _ => ""⟩

/-- C7 counterexample: with equal counts, the top-collaborator list
keeps dict insertion order, not ascending identifier order: actor 3
("C") precedes actor 2 ("B") even though `id(B) < id(C)` — and the
entries are keyed by display name, not identifier. -/
theorem top_collaborations_tie_insertion_order :
    topCollaborations storeTieBreak 1 = [("C", 1), ("B", 1)] ∧
    storeTieBreak.actorNames 2 = "B" ∧ storeTieBreak.actorNames 3 = "C" := by
  refine ⟨?_, rfl, rfl⟩
  rfl

/-- C7 amended: the top-collaborator list is the first five entries of
a sort by count descending that is stable — for each count value, the
equal-count entries appear exactly in their dict insertion order (order
of first encounter over the actor's movies, then episodes), with no
identifier-based tie-break. -/
theorem top_collaborations_sorted_stable (store : Store) (actorId : ℕ) :
    topCollaborations store actorId =
      (sortByCountDesc (findCollaborations store actorId)).take 5 ∧
    (sortByCountDesc (findCollaborations store actorId)).Pairwise
      (fun u v => v.2 ≤ u.2) ∧
    ∀ c : ℕ,
      (sortByCountDesc (findCollaborations store actorId)).filter (fun u => u.2 = c) =
        (findCollaborations store actorId).filter (fun u => u.2 = c) :=
  ⟨rfl, sortByCountDesc_pairwise _, fun c => filter_sortByCountDesc c _⟩

/-- The store used to exhibit the completion-order dependence: two
submitted actors, of which only actor 1 has any content. -/
def storeTwoActors : Store :=
  ⟨[⟨1, "ACTION", 0, [1], [], [4]⟩], [], fun _ => "X", fun _ => "Y"⟩

/-- C8 counterexample: the per-actor records are pure functions of the
snapshot, but the driver appends them in `as_completed` order, so two
runs whose futures finish in different orders produce different result
sequences over the same unchanged store. -/
theorem analyze_all_actors_order_nondeterministic :
    analyzeAllActorsT storeTwoActors [1, 2] ≠ analyzeAllActorsT storeTwoActors [2, 1] := by
  intro h
  have h1 : (analyzeAllActorsT storeTwoActors [1, 2]).map ActorAnalysisT.actorId =
      [1, 2] := rfl
  have h2 : (analyzeAllActorsT storeTwoActors [2, 1]).map ActorAnalysisT.actorId =
      [2, 1] := rfl
  rw [h, h2] at h1
  exact absurd h1 (by decide)

/-- C8 amended: each record is a deterministic pure function of the
snapshot, and the output sequence is the completion order's image — so
two runs over the same snapshot yield the same multiset of records
(equal lists whenever the completion orders coincide), but the order
varies with the completion order. -/
theorem analyze_all_actors_deterministic_up_to_order (store : Store)
    (ord1 ord2 : List ℕ) (h : ord1.Perm ord2) :
    analyzeAllActorsT store ord1 =
      ord1.filterMap (fun a => (analyzeSingleActorT store a).toOption) ∧
    (analyzeAllActorsT store ord1).Perm (analyzeAllActorsT store ord2) :=
  ⟨rfl, h.filterMap _⟩

/-- C8 witness: the two completion orders of the two-actor store yield
permutations of each other. -/
theorem analyze_all_actors_deterministic_up_to_order_witness :
    (analyzeAllActorsT storeTwoActors [1, 2]).Perm
      (analyzeAllActorsT storeTwoActors [2, 1]) :=
  (analyze_all_actors_deterministic_up_to_order storeTwoActors [1, 2] [2, 1] (by decide)).2

/-- C9 counterexample: an out-of-range rating is not recorded as a
warning and its unit is not skipped — `_calculate_rating_distribution`
raises `KeyError` at the first value outside `[1,5]`, aborting that
actor's whole analysis, while `_calculate_average_rating` silently
includes the out-of-range value in the mean. -/
theorem out_of_range_rating_raises :
    calculateRatingDistribution [3, 6, 4] = Except.error "KeyError" ∧
    calculateAverageRating [3, 6] = 9 / 2 ∧
    analyzeSingleActor
        ⟨[⟨1, "ACTION", 0, [1], [], [6]⟩], [], fun _ => "X", fun _ => "Y"⟩ 1 =
      Except.error "KeyError" := by
  refine ⟨rfl, ?_, rfl⟩
  rw [calculateAverageRating, if_neg (by decide)]
  norm_num [listMean, ratingCasts]

/-- C9 amended: the distribution step succeeds exactly when every
rating lies in `[1,5]` (otherwise it raises `KeyError` instead of
warning and skipping), and the average includes every value, in range
or not, as `sum / len`. -/
theorem rating_distribution_ok_iff_in_range (rs : List ℕ) :
    ((∃ d, calculateRatingDistribution rs = Except.ok d) ↔ ∀ r ∈ rs, 1 ≤ r ∧ r ≤ 5) ∧
    (rs ≠ [] → calculateAverageRating rs = (ratingCasts rs).sum / (rs.length : ℚ)) := by
  constructor
  · exact distributionLoop_ok_iff rs RatingDist.initial
  · intro h
    rw [calculateAverageRating, if_neg h, listMean]

/-- C9 witness: the in-range ratings `[1, 5]` keep the distribution
well-defined and average to 3. -/
theorem rating_distribution_ok_iff_in_range_witness :
    (∃ d, calculateRatingDistribution [1, 5] = Except.ok d) ∧
    calculateAverageRating [1, 5] = 3 := by
  have h := rating_distribution_ok_iff_in_range [1, 5]
  refine ⟨h.1.mpr (by decide), ?_⟩
  rw [h.2 (by decide)]
  norm_num [ratingCasts]

end MoviesDB
